import Mathlib

/-!
Verification of the query-understanding and advice-decision pipeline of the
Krishi Mitra server (src/front.js) against its specification.

The JavaScript source is shallowly embedded: JS numbers used for confidence
scores are modelled as rationals, JS strings as Lean strings (substring tests
over their character lists), the in-memory stores (farmer Map, query log,
escalation list, feedback list) as an explicit state record threaded through
the route handlers, and the clock (Date.now, getMonth) as explicit numeric
parameters.  Collaborator stubs (image analysis, voice, weather, translation)
are embedded exactly as the mock functions in the source define them.
-/

namespace KrishiMitra

/-! ### JS string primitives -/

/-- Model of JS String.prototype.toLowerCase.  Lean Char.toLower lowers the
ASCII range only; every vocabulary word, key and input used below is either
ASCII or (for Malayalam text) has no case, where both functions are the
identity, so the two agree on everything this development evaluates. -/
def jsToLower (s : String) : String := ⟨s.data.map Char.toLower⟩

/-- Substring containment on character lists: true when pat occurs
contiguously inside the list.  Backs the model of JS String.includes. -/
def containsSeq (pat : List Char) : List Char → Bool
  | [] => pat.isPrefixOf []
  | c :: rest => pat.isPrefixOf (c :: rest) || containsSeq pat rest

/-- Model of JS s.includes(pat). -/
def strIncludes (s pat : String) : Bool := containsSeq pat.data s.data

/-- Replace the first occurrence of pat in the list by rep; the list is
returned unchanged when pat does not occur.  Models JS
String.prototype.replace with a string pattern, which substitutes only the
first occurrence. -/
def replaceFirstList (pat rep : List Char) : List Char → List Char
  | [] => if pat.isPrefixOf ([] : List Char) then rep else []
  | c :: rest =>
    if pat.isPrefixOf (c :: rest) then rep ++ (c :: rest).drop pat.length
    else c :: replaceFirstList pat rep rest

/-- Model of JS text.replace(pat, rep) for string patterns. -/
def replaceFirst (text pat rep : String) : String :=
  ⟨replaceFirstList pat.data rep.data text.data⟩

/-- JS template interpolation of a value that may be undefined: interpolating
undefined produces the text "undefined". -/
def jsStr : Option String → String
  | some s => s
  | none => "undefined"

/-! ### Knowledge base (front.js lines 48-84) -/

/-- One entry of cropDatabase.  The pesticides object is kept as an ordered
association list so that the JS fallback to the first listed treatment
(Object.keys(...)[0]) stays expressible. -/
structure CropInfo where
  commonDiseases : List String
  pests : List String
  seasonPlant : String
  seasonHarvest : String
  pesticides : List (String × String)
deriving DecidableEq

/-- The cropDatabase object (front.js:48).  Lookup of any other key, or of
the JS undefined value, yields none. -/
def cropDatabase : String → Option CropInfo
  | "banana" => some
      { commonDiseases := ["leaf spot", "panama disease", "black sigatoka"]
        pests := ["aphids", "nematodes", "thrips"]
        seasonPlant := "June-July", seasonHarvest := "April-May"
        pesticides := [("leaf spot", "Copper oxychloride 0.3% or Mancozeb 0.2%"),
                       ("black sigatoka", "Propiconazole 0.1%")] }
  | "rice" => some
      { commonDiseases := ["blast", "brown spot", "sheath blight"]
        pests := ["stem borer", "brown planthopper", "leaf folder"]
        seasonPlant := "May-June, Nov-Dec", seasonHarvest := "Sep-Oct, Mar-Apr"
        pesticides := [("blast", "Tricyclazole 0.06% or Carbendazim 0.1%"),
                       ("brown spot", "Mancozeb 0.2%")] }
  | "tomato" => some
      { commonDiseases := ["late blight", "early blight", "bacterial wilt"]
        pests := ["whitefly", "fruit borer", "aphids"]
        seasonPlant := "Oct-Nov, Jan-Feb", seasonHarvest := "Dec-Jan, Apr-May"
        pesticides := [("late blight", "Metalaxyl + Mancozeb 0.2%"),
                       ("early blight", "Chlorothalonil 0.2%")] }
  | _ => none

/-- One government scheme entry (front.js:78). -/
structure SchemeEntry where
  name : String
  eligibility : String
  benefit : String
deriving DecidableEq

/-- The kerala entry of the schemes object. -/
def keralaSchemes : List SchemeEntry :=
  [ { name := "Krishi Bhavan Support", eligibility := "All farmers",
      benefit := "Free consultation" },
    { name := "Organic Farming Subsidy", eligibility := "Small farmers",
      benefit := "50% subsidy on organic inputs" },
    { name := "Crop Insurance", eligibility := "All farmers",
      benefit := "Weather risk coverage" } ]

/-- Lookup in the schemes object; the only key is kerala. -/
def schemes (region : String) : List SchemeEntry :=
  if region = "kerala" then keralaSchemes else []

/-! ### NLU pipeline (front.js lines 89-177) -/

/-- The entities object produced by extractEntities; fields start as JS null
(none here) and are overwritten by each vocabulary match. -/
structure Entities where
  crop : Option String
  disease : Option String
  pest : Option String
  location : Option String
  season : Option String
deriving DecidableEq

def cropWords : List String :=
  ["banana", "rice", "tomato", "coconut", "pepper", "cardamom"]

def diseaseWords : List String :=
  ["spot", "blight", "wilt", "rot", "disease", "infection"]

def pestWords : List String :=
  ["aphid", "borer", "thrips", "nematode", "pest", "insect"]

/-- The forEach overwrite in extractEntities: the last vocabulary word (in
declaration order) contained in the text wins. -/
def lastMatch (words : List String) (text : String) : Option String :=
  words.foldl (fun acc w => if strIncludes text w then some w else acc) none

/-- extractEntities (front.js:115).  The location and season slots are never
written by the function. -/
def extractEntities (text : String) : Entities :=
  { crop := lastMatch cropWords text
    disease := lastMatch diseaseWords text
    pest := lastMatch pestWords text
    location := none
    season := none }

/-- The intentPatterns object of classifyIntent, in declaration order. -/
def intentPatterns : List (String × List String) :=
  [ ("disease_diagnosis", ["disease", "problem", "infected", "spots", "yellowing"]),
    ("pest_control", ["pest", "insect", "eating", "holes", "damage"]),
    ("fertilizer_advice", ["fertilizer", "nutrient", "growth", "yield"]),
    ("weather_query", ["weather", "rain", "temperature", "climate"]),
    ("scheme_info", ["scheme", "subsidy", "loan", "government", "support"]) ]

/-- classifyIntent (front.js:144): first intent, in declaration order, one of
whose trigger words is contained in the text; general_query otherwise. -/
def classifyIntent (text : String) : String :=
  match intentPatterns.find? (fun p => p.2.any (fun pat => strIncludes text pat)) with
  | some p => p.1
  | none => "general_query"

/-- The commonPhrases table of translateMalayalam, in declaration order. -/
def commonPhrases : List (String × String) :=
  [ ("വാഴയില് പുള്ളി", "banana leaf spot"),
    ("രോഗം", "disease"),
    ("കീടം", "pest"),
    ("മരുന്ന്", "medicine"),
    ("എന്ത് ചെയ്യണം", "what to do") ]

/-- translateMalayalam (front.js:162): for each table entry in order, replace
the first occurrence of the phrase. -/
def translateMalayalam (text : String) : String :=
  commonPhrases.foldl (fun t p => replaceFirst t p.1 p.2) text

/-- The result object of processNaturalLanguage.  Note that the source
reassigns the local variable text when translating, so originalText carries
the post-translation text for Malayalam input. -/
structure NluResult where
  originalText : String
  translatedText : Option String
  entities : Entities
  intent : String
  confidence : ℚ
deriving DecidableEq

/-- processNaturalLanguage (front.js:89).  Entities are extracted from the
lower-cased input BEFORE the Malayalam translation step reassigns text;
intent classification then runs on the (possibly translated, un-lowercased)
text.  The try/catch never fires: no operation in the body can throw on
string input, so the error-marked result is unreachable and not modelled. -/
def processNaturalLanguage (text : String) (language : String) : NluResult :=
  let entities := extractEntities (jsToLower text)
  let text1 := if language = "ml" then translateMalayalam text else text
  let intent := classifyIntent text1
  { originalText := text1
    translatedText := if language = "ml" then some text1 else none
    entities := entities
    intent := intent
    confidence := mkRat 85 100 }

/-- Modelled from the spec wording of translation ordering, for comparison
with processNaturalLanguage: if language is ml, the text is run through the
phrase table BEFORE both entity extraction and intent classification. -/
def processNaturalLanguageSpecC5 (text : String) (language : String) : NluResult :=
  let text1 := if language = "ml" then translateMalayalam text else text
  { originalText := text1
    translatedText := if language = "ml" then some text1 else none
    entities := extractEntities (jsToLower text1)
    intent := classifyIntent text1
    confidence := mkRat 85 100 }

/-! ### Image analysis stub (front.js lines 180-213) -/

structure ImageAnalysisResult where
  disease : String
  confidence : ℚ
  symptoms : List String
  severity : String
deriving DecidableEq

/-- The diseasePatterns object of analyzeImage, in declaration order:
pattern, disease label, confidence. -/
def diseasePatterns : List (String × String × ℚ) :=
  [ ("spot", "Leaf Spot", mkRat 82 100),
    ("blight", "Late Blight", mkRat 89 100),
    ("yellow", "Nutrient Deficiency", mkRat 75 100),
    ("brown", "Fungal Infection", mkRat 78 100) ]

/-- analyzeImage (front.js:180).  The argument is the base name of the
uploaded file (path.basename); the first pattern contained in the lower-cased
name wins, otherwise the Unknown-condition sentinel result is returned.  The
crop argument of the source is unused by its body. -/
def analyzeImage (fileName : String) : ImageAnalysisResult :=
  let fn := jsToLower fileName
  match diseasePatterns.find? (fun p => strIncludes fn p.1) with
  | some (pat, disease, conf) =>
      { disease := disease
        confidence := conf
        symptoms := ["Visible " ++ pat ++ " patterns", "Affected leaf areas"]
        severity := if conf > mkRat 8 10 then "high" else "medium" }
  | none =>
      { disease := "Unknown condition"
        confidence := mkRat 45 100
        symptoms := ["Unclear symptoms from image"]
        severity := "low" }

/-! ### Voice stub (front.js lines 216-228) -/

structure VoiceResult where
  text : String
  language : String
  confidence : ℚ
deriving DecidableEq

/-- processVoice (front.js:216): the stub returns a fixed transcription
regardless of the audio path. -/
def processVoice (_audioPath : String) : VoiceResult :=
  { text := "വാഴയിൽ പുള്ളി രോഗം വന്നിട്ടുണ്ട്, എന്ത് മരുന്ന് ഉപയോഗിക്കണം?"
    language := "ml"
    confidence := mkRat 87 100 }

/-! ### Utility collaborators (front.js lines 392-418) -/

structure Weather where
  condition : String
  temperature : ℚ
  humidity : ℚ
  rainfall : String
deriving DecidableEq

/-- getLocalWeather (front.js:399): fixed mock data for every location. -/
def getLocalWeather (_location : String) : Weather :=
  { condition := "partly cloudy", temperature := 28, humidity := 75,
    rainfall := "moderate" }

/-- getCurrentSeason (front.js:392), with the calendar month (getMonth()+1,
so 1..12) passed explicitly.  The source condition for the post-monsoon
branch is month >= 10 AND month <= 2, embedded verbatim. -/
def getCurrentSeason (month : ℕ) : String :=
  if 6 ≤ month ∧ month ≤ 9 then "monsoon"
  else if 10 ≤ month ∧ month ≤ 2 then "post-monsoon"
  else "pre-monsoon"

structure CropCalendar where
  plantingSeason : String
  harvestSeason : String
  nextActivity : String
deriving DecidableEq

/-- getCropCalendar (front.js:409); null when the crop is not in the
database.  The location argument is unused by the source body. -/
def getCropCalendar (crop : String) (_location : String) : Option CropCalendar :=
  (cropDatabase crop).map fun info =>
    { plantingSeason := info.seasonPlant
      harvestSeason := info.seasonHarvest
      nextActivity := "Apply fertilizer in 2 weeks" }

/-! ### In-memory stores (front.js lines 41-45) and their records -/

/-- A feedback entry as built by the feedback route (front.js:581).  The
timestamp is an abstract clock value. -/
structure FeedbackEntry where
  queryId : ℕ
  rating : ℤ
  comments : String
  isHelpful : Bool
  timestamp : ℕ
deriving DecidableEq

/-- The query object the query route passes to recordQuery and to
generateAdvice (front.js:468 and :493): queryText, farmerId, crop, location,
season.  It carries NO language field. -/
structure QueryIn where
  queryText : String
  farmerId : String
  crop : String
  location : String
  season : String
deriving DecidableEq

/-- The result object of generateAdvice (front.js:266).  The echoed context
field of the source object is carried for the caller only and read by none of
the routes or analytics, and holding it here would make the record types
mutually nested through previousQueries; it is therefore omitted from the
embedding. -/
structure AdviceResult where
  mainAdvice : String
  recommendations : List String
  confidence : ℚ
  shouldEscalate : Bool
deriving DecidableEq

/-- A record of the query log (front.js:359).  Both id and timestamp come
from the clock (Date.now / toISOString), modelled by one abstract tick. -/
structure QueryRecord where
  id : ℕ
  timestamp : ℕ
  query : QueryIn
  response : AdviceResult
  feedback : Option FeedbackEntry
  farmerId : String
deriving DecidableEq

/-- A farmer profile (front.js:372). -/
structure FarmerProfile where
  id : String
  location : String
  crops : List String
  queryHistory : List ℕ
  joinDate : ℕ
deriving DecidableEq

/-- An escalation record as pushed by the query route (front.js:477). -/
structure EscalationRecord where
  id : ℕ
  farmerId : String
  originalQuery : String
  nlpResult : Option NluResult
  imageAnalysis : Option ImageAnalysisResult
  aiResponse : AdviceResult
  location : String
  crop : String
  priority : String
  createdAt : ℕ
deriving DecidableEq

/-- JS Map get, with the Map modelled as an insertion-ordered association
list. -/
def mapGet {α : Type} : List (String × α) → String → Option α
  | [], _ => none
  | (k', v) :: rest, k => if k' = k then some v else mapGet rest k

/-- JS Map set: overwrite in place when the key exists, append otherwise
(JS Maps keep the original insertion position on overwrite). -/
def mapSet {α : Type} : List (String × α) → String → α → List (String × α)
  | [], k, v => [(k, v)]
  | (k', v') :: rest, k, v =>
    if k' = k then (k, v) :: rest else (k', v') :: mapSet rest k v

/-- The four mutable in-memory stores of the server (front.js:41-45).  The
knowledgeBase Map of the source is declared but never read or written and is
omitted. -/
structure SysState where
  farmers : List (String × FarmerProfile)
  escalations : List EscalationRecord
  queries : List QueryRecord
  feedback : List FeedbackEntry
deriving DecidableEq

/-- The stores at process start. -/
def emptyState : SysState :=
  { farmers := [], escalations := [], queries := [], feedback := [] }

/-! ### Context-aware AI engine (front.js lines 231-355) -/

/-- The context argument of generateAdvice as assembled by the query route
(front.js:469): nlp result, image analysis, and the raw request fields. -/
structure Context where
  nlp : Option NluResult
  imageAnalysis : Option ImageAnalysisResult
  crop : String
  location : String
  season : String
  farmerId : String
deriving DecidableEq

/-- The aiContext object built inside generateAdvice (front.js:239).  Its
previousQueries field (farmerHistory.slice(-5)) is read by nothing modelled
here (it is only echoed back in the omitted context field of the result) and
is left out. -/
structure AiContext where
  location : Option String
  crop : Option String
  season : String
  localWeather : Weather
  cropCalendar : Option CropCalendar
deriving DecidableEq

/-- The aiContext construction of generateAdvice (front.js:239-246).
location falls back through the farmer profile (undefined when the farmer is
unknown); crop falls back to the NLU crop entity; season falls back to
getCurrentSeason; the crop calendar is looked up with the RAW request crop
field, not the resolved one. -/
def buildAiContext (farmers : List (String × FarmerProfile)) (ctx : Context)
    (month : ℕ) : AiContext :=
  let farmerProfile := mapGet farmers ctx.farmerId
  { location := if ctx.location ≠ "" then some ctx.location
                else farmerProfile.map (fun p => p.location)
    crop := if ctx.crop ≠ "" then some ctx.crop
            else ctx.nlp.bind (fun n => n.entities.crop)
    season := if ctx.season ≠ "" then ctx.season else getCurrentSeason month
    localWeather := getLocalWeather ctx.location
    cropCalendar := getCropCalendar ctx.crop ctx.location }

/-- The treatment selection of generateDiseaseAdvice (front.js:288): the
pesticide entry for the lower-cased disease name, falling back to the first
listed pesticide of the crop.  Every database entry lists at least one
pesticide, so the final default is unreachable on database data. -/
def selectTreatment (info : CropInfo) (diseaseLower : String) : String :=
  match (info.pesticides.find? (fun p => p.1 = diseaseLower)).map (fun p => p.2) with
  | some t => t
  | none => ((info.pesticides.head?).map (fun p => p.2)).getD "undefined"

/-- generateDiseaseAdvice (front.js:279).  When the resolved crop is absent
from the database (or is undefined), the early return emits the generic
consult message, with no urgency sentence regardless of severity. -/
def generateDiseaseAdvice (ia : ImageAnalysisResult) (ctx : AiContext) : String :=
  match ctx.crop with
  | none =>
      "Detected " ++ ia.disease ++
      ". General recommendation: Consult with local agricultural officer for crop-specific treatment."
  | some crop =>
    match cropDatabase crop with
    | none =>
        "Detected " ++ ia.disease ++
        ". General recommendation: Consult with local agricultural officer for crop-specific treatment."
    | some info =>
      let treatment := selectTreatment info (jsToLower ia.disease)
      "Detected " ++ ia.disease ++ " in your " ++ crop ++ ". " ++
      (if ia.severity = "high" then
        "This is a serious condition requiring immediate attention. " else "") ++
      "Recommended treatment: " ++ treatment ++ ". " ++
      "Apply during early morning or late evening. " ++
      "Ensure proper coverage of affected areas." ++
      (if ctx.season ≠ "" then
        " Since it\x27s " ++ ctx.season ++
        ", also ensure proper drainage and avoid overhead irrigation."
       else "")

/-- generateIntentBasedAdvice (front.js:309).  Undefined crop or location
interpolates as the text "undefined", as in JS template strings. -/
def generateIntentBasedAdvice (nlp : NluResult) (ctx : AiContext) : String :=
  let crop := jsStr ctx.crop
  if nlp.intent = "disease_diagnosis" then
    "For " ++ crop ++ " disease issues in " ++ jsStr ctx.location ++
    ", I recommend uploading a clear photo of the affected plant parts for accurate diagnosis."
  else if nlp.intent = "pest_control" then
    match ctx.crop.bind cropDatabase with
    | some info =>
        "Common pests in " ++ crop ++ ": " ++ String.intercalate ", " info.pests ++
        ". Use IPM approach - neem oil spray, yellow sticky traps, and biological control agents."
    | none =>
        "For pest control in " ++ crop ++
        ", use integrated pest management. Upload photos for specific identification."
  else if nlp.intent = "fertilizer_advice" then
    "For " ++ crop ++ " in " ++
    (if ctx.season ≠ "" then ctx.season else "current season") ++
    ", use balanced NPK fertilizer. Soil testing recommended for precise nutrient management."
  else if nlp.intent = "scheme_info" then
    let locationSchemes :=
      match ctx.location with
      | some l => schemes (jsToLower l)
      | none => []
    "Available schemes: " ++
    String.intercalate ", " (locationSchemes.map (fun s => s.name)) ++
    ". Contact your local Krishi Bhavan for applications."
  else
    "I understand you\x27re asking about " ++ crop ++
    ". Please provide more specific details or upload photos for better assistance."

/-- getContextualRecommendations (front.js:336): weather warning, then
seasonal warning, then crop-calendar activity. -/
def getContextualRecommendations (ctx : AiContext) : List String :=
  (if ctx.localWeather.condition = "rainy" then
    ["⛈ Heavy rains expected - ensure proper drainage to prevent fungal diseases"]
   else []) ++
  (if ctx.season = "monsoon" then
    ["🌧 Monsoon season - increase surveillance for disease outbreaks"]
   else []) ++
  (match ctx.cropCalendar with
   | some cal =>
      if cal.nextActivity ≠ "" then ["📅 Upcoming: " ++ cal.nextActivity] else []
   | none => [])

/-- generateAdvice (front.js:231).  The nlp-intent guard nlp?.intent is
truthy exactly when an NLU result is present with a nonempty intent, and the
confidence fallback nlp.confidence || 0.7 fires exactly when the stored
confidence is the falsy number 0.  The try/catch of the source never fires:
no operation in the body throws, so the error-marked result is unreachable
and not modelled. -/
def generateAdvice (farmers : List (String × FarmerProfile)) (ctx : Context)
    (month : ℕ) : AdviceResult :=
  let aiContext := buildAiContext farmers ctx month
  let fallback : String × ℚ :=
    ("I need more information to help you better. Could you describe your problem or upload a photo?",
     mkRat 3 10)
  let nlpPick : String × ℚ :=
    match ctx.nlp with
    | some nlp =>
        if nlp.intent ≠ "" then
          (generateIntentBasedAdvice nlp aiContext,
           if nlp.confidence = 0 then mkRat 7 10 else nlp.confidence)
        else fallback
    | none => fallback
  let pick : String × ℚ :=
    match ctx.imageAnalysis with
    | some ia =>
        if ia.disease ≠ "Unknown condition" then
          (generateDiseaseAdvice ia aiContext, ia.confidence)
        else nlpPick
    | none => nlpPick
  { mainAdvice := pick.1
    recommendations := getContextualRecommendations aiContext
    confidence := pick.2
    shouldEscalate := decide (pick.2 < mkRat 6 10) }

/-! ### Learning loop (front.js lines 358-389) -/

/-- recordQuery (front.js:358).  The clock value now supplies both the record
id (Date.now) and the timestamps.  The JS code first inserts a fresh profile
when the farmer id is unseen, then reads the profile back, mutates it and
stores it; the net effect on the Map is the single mapSet below.  The
optional feedback parameter of the source defaults to null and the routes
never pass it. -/
def recordQuery (st : SysState) (now : ℕ) (query : QueryIn)
    (response : AdviceResult) : SysState :=
  let queryRecord : QueryRecord :=
    { id := now, timestamp := now, query := query, response := response,
      feedback := none, farmerId := query.farmerId }
  let farmer : FarmerProfile :=
    match mapGet st.farmers query.farmerId with
    | some p => p
    | none =>
        { id := query.farmerId, location := query.location, crops := [],
          queryHistory := [], joinDate := now }
  let farmer := { farmer with queryHistory := farmer.queryHistory ++ [queryRecord.id] }
  let farmer :=
    if query.crop ≠ "" ∧ ¬ (query.crop ∈ farmer.crops) then
      { farmer with crops := farmer.crops ++ [query.crop] }
    else farmer
  { st with queries := st.queries ++ [queryRecord],
            farmers := mapSet st.farmers query.farmerId farmer }

/-- A sequence of recordQuery calls: each element carries the clock value,
the query object and the advice result of one processed request. -/
def runQueries (st : SysState) (ops : List (ℕ × QueryIn × AdviceResult)) : SysState :=
  ops.foldl (fun s op => recordQuery s op.1 op.2.1 op.2.2) st

/-- The crops list of the stored profile of a farmer; empty when the farmer
has no profile yet. -/
def cropsOf (st : SysState) (farmerId : String) : List String :=
  ((mapGet st.farmers farmerId).map (fun p => p.crops)).getD []

/-! ### The query route (front.js lines 423-532) -/

/-- One request to POST /api/query: the body fields with their destructuring
defaults (front.js:428-435) and the optional uploads. -/
structure Request where
  queryText : String
  location : String
  crop : String
  farmerId : String
  language : String
  season : String
  hasImage : Bool
  imageFileName : String
  hasAudio : Bool
  audioFileName : String
deriving DecidableEq

/-- The JSON body of a successful query response (front.js:505-521), with
the nested context and processingDetails objects flattened into fields. -/
structure ApiResponse where
  answer : String
  recommendations : List String
  confidence : ℚ
  status : String
  detectedCrop : String
  detectedDisease : Option String
  season : String
  language : String
  nlpProcessed : Bool
  imageProcessed : Bool
  voiceProcessed : Bool
deriving DecidableEq

/-- Outcome of a route handler: a JSON response plus the stores after the
request, or a 500 error response (the catch branch) with the stores as they
were when the throw happened. -/
inductive HandlerResult where
  | ok (response : ApiResponse) (st : SysState)
  | serverError (message : String) (st : SysState)
deriving DecidableEq

/-- The stores after a handler ran. -/
def HandlerResult.state : HandlerResult → SysState
  | .ok _ st => st
  | .serverError _ st => st

/-- The answer field of a successful response, none on a 500. -/
def HandlerResult.answer? : HandlerResult → Option String
  | .ok resp _ => some resp.answer
  | .serverError _ _ => none

/-- The status field of a successful response, none on a 500. -/
def HandlerResult.status? : HandlerResult → Option String
  | .ok resp _ => some resp.status
  | .serverError _ _ => none

/-- The priority expression of the escalation push (front.js:486). -/
def escalationPriority (confidence : ℚ) : String :=
  if confidence < mkRat 4 10 then "high" else "medium"

/-- The advice result the query route computes for a request that is not
carrying audio: the generateAdvice call of front.js:467-471 with the nlp
result (computed only for nonempty text) and the image analysis (computed
only when an image was uploaded). -/
def handlerAdvice (st : SysState) (req : Request) (month : ℕ) : AdviceResult :=
  generateAdvice st.farmers
    { nlp := if req.queryText ≠ "" then
               some (processNaturalLanguage req.queryText req.language)
             else none
      imageAnalysis := if req.hasImage then
               some (analyzeImage req.imageFileName)
             else none
      crop := req.crop
      location := req.location
      season := req.season
      farmerId := req.farmerId }
    month

/-- The body of the query route after the voice-input block, for requests in
which that block did not throw (front.js:453-523): NLU on nonempty text,
image analysis, advice generation, the escalation decision
aiResponse.shouldEscalate || aiResponse.confidence < 0.6, the escalation
push, recordQuery, and the response object. -/
def processQueryCore (st : SysState) (req : Request) (now month : ℕ) :
    HandlerResult :=
  let nlpResult : Option NluResult :=
    if req.queryText ≠ "" then
      some (processNaturalLanguage req.queryText req.language)
    else none
  let imageAnalysis : Option ImageAnalysisResult :=
    if req.hasImage then some (analyzeImage req.imageFileName) else none
  let aiResponse := handlerAdvice st req month
  let escalated := aiResponse.shouldEscalate || decide (aiResponse.confidence < mkRat 6 10)
  let st1 :=
    if escalated = true then
      { st with escalations := st.escalations ++
          [{ id := now
             farmerId := req.farmerId
             originalQuery := req.queryText
             nlpResult := nlpResult
             imageAnalysis := imageAnalysis
             aiResponse := aiResponse
             location := req.location
             crop := req.crop
             priority := escalationPriority aiResponse.confidence
             createdAt := now }] }
    else st
  let st2 := recordQuery st1 now
      { queryText := req.queryText, farmerId := req.farmerId, crop := req.crop,
        location := req.location, season := req.season } aiResponse
  HandlerResult.ok
    { answer := aiResponse.mainAdvice
      recommendations := aiResponse.recommendations
      confidence := aiResponse.confidence
      status := if escalated = true then "escalated" else "answered"
      detectedCrop := (nlpResult.bind (fun n => n.entities.crop)).getD req.crop
      detectedDisease := imageAnalysis.map (fun ia => ia.disease)
      season := if req.season ≠ "" then req.season else getCurrentSeason month
      language := req.language
      nlpProcessed := nlpResult.isSome
      imageProcessed := imageAnalysis.isSome
      voiceProcessed := false }
    st2

/-- POST /api/query (front.js:423).  When an audio file is attached, the
handler runs processVoice, and since the stub transcription text is truthy it
then executes language = voiceResult.language || language (front.js:449).
language, however, is a const destructuring binding (front.js:428-435), so
that assignment throws a TypeError before any store is touched; the route
catch (front.js:525) turns it into a 500 error response.  Otherwise the body
continues with processedQuery = queryText. -/
def processQuery (st : SysState) (req : Request) (now month : ℕ) :
    HandlerResult :=
  if req.hasAudio = true ∧ (processVoice req.audioFileName).text ≠ "" then
    HandlerResult.serverError "Failed to process your query" st
  else
    processQueryCore st req now month

/-! ### The feedback route (front.js lines 577-603) -/

/-- The update queries[queryIndex].feedback = feedbackEntry after findIndex
(front.js:592-595): set the feedback field of the FIRST record with the given
id, leave the log unchanged when no record matches. -/
def attachFeedbackToLog (fe : FeedbackEntry) (queryId : ℕ) :
    List QueryRecord → List QueryRecord
  | [] => []
  | q :: rest =>
    if q.id = queryId then { q with feedback := some fe } :: rest
    else q :: attachFeedbackToLog fe queryId rest

/-- POST /api/feedback (front.js:577): build the feedback entry, push it to
the feedback log UNCONDITIONALLY, then attach it to the query record when one
with that id exists. -/
def apiFeedback (st : SysState) (queryId : ℕ) (rating : ℤ) (comments : String)
    (isHelpful : Bool) (ts : ℕ) : SysState :=
  let fe : FeedbackEntry :=
    { queryId := queryId, rating := rating, comments := comments,
      isHelpful := isHelpful, timestamp := ts }
  { st with feedback := st.feedback ++ [fe],
            queries := attachFeedbackToLog fe queryId st.queries }

/-! ### Analytics (front.js lines 619-665) -/

/-- A JS number as produced by the analytics divisions: NaN (0/0), Infinity
(positive/0; both operands here are nonnegative counts), or an exact value.
The source formats these with toFixed, which renders NaN as the string NaN;
the model stays at the numeric level. -/
inductive JsNum where
  | nan
  | inf
  | val (q : ℚ)
deriving DecidableEq

/-- JS division for nonnegative operands: 0/0 is NaN, a/0 with a positive is
Infinity, exact otherwise. -/
def jsDiv (a b : ℚ) : JsNum :=
  if b = 0 then (if a = 0 then JsNum.nan else JsNum.inf) else JsNum.val (a / b)

/-- Multiplication by the positive literal 100 in the escalation-rate
expression; NaN and Infinity absorb it. -/
def jsMul100 : JsNum → JsNum
  | JsNum.nan => JsNum.nan
  | JsNum.inf => JsNum.inf
  | JsNum.val q => JsNum.val (q * 100)

/-- The language counters of getLanguageDistribution (front.js:659). -/
structure LangDist where
  en : ℕ
  ml : ℕ
  hi : ℕ
  other : ℕ
deriving DecidableEq

/-- getLanguageDistribution (front.js:658).  The route records query objects
without a language field (front.js:493, see QueryIn), so q.query.language is
undefined and (q.query.language || "en") is "en" for every record: every
query is counted in the en bucket, and the ml, hi and other counters stay 0.
(Had a language been stored, a value outside the four initialized keys would
have created a new object key via langCount[lang] = (langCount[lang] || 0)+1
rather than incrementing other.) -/
def getLanguageDistribution (st : SysState) : LangDist :=
  st.queries.foldl (fun d _q => { d with en := d.en + 1 })
    { en := 0, ml := 0, hi := 0, other := 0 }

/-- The analytics object of GET /api/analytics (front.js:621-629).  The
topCrops and topDiseases rankings are not read by any claim and are omitted;
escalationRate and avgConfidence are kept as numbers (the source applies
toFixed for display).  q.response?.confidence || 0 equals the stored
confidence: the response is always present and the guard only maps the falsy
number 0 to 0. -/
structure Analytics where
  totalQueries : ℕ
  totalFarmers : ℕ
  escalationRate : JsNum
  avgConfidence : JsNum
  languageDistribution : LangDist
deriving DecidableEq

/-- GET /api/analytics (front.js:619). -/
def getAnalytics (st : SysState) : Analytics :=
  { totalQueries := st.queries.length
    totalFarmers := st.farmers.length
    escalationRate :=
      jsMul100 (jsDiv (st.escalations.length : ℚ) (st.queries.length : ℚ))
    avgConfidence :=
      jsDiv (st.queries.foldl (fun s q => s + q.response.confidence) 0)
        (st.queries.length : ℚ)
    languageDistribution := getLanguageDistribution st }

/-! ### Helper lemmas -/

theorem containsSeq_nil (l : List Char) : containsSeq [] l = true := by
  induction l with
  | nil => rfl
  | cons c rest ih => simp [containsSeq]

theorem isPrefixOf_append_extend (p l t : List Char) (h : p.isPrefixOf l = true) :
    p.isPrefixOf (l ++ t) = true := by
  induction p generalizing l with
  | nil => simp
  | cons a p' ih =>
    cases l with
    | nil => simp at h
    | cons b l' =>
      rw [List.cons_append]
      rw [List.isPrefixOf_cons₂] at h ⊢
      simp only [Bool.and_eq_true] at h ⊢
      exact ⟨h.1, ih l' h.2⟩

theorem containsSeq_append_right (pat s t : List Char)
    (h : containsSeq pat t = true) : containsSeq pat (s ++ t) = true := by
  induction s with
  | nil => simpa using h
  | cons c s' ih =>
    rw [List.cons_append]
    show (pat.isPrefixOf (c :: (s' ++ t)) || containsSeq pat (s' ++ t)) = true
    simp only [Bool.or_eq_true]
    exact Or.inr ih

theorem containsSeq_append_left (pat s t : List Char)
    (h : containsSeq pat s = true) : containsSeq pat (s ++ t) = true := by
  induction s with
  | nil =>
    cases pat with
    | nil => exact containsSeq_nil t
    | cons a p' => simp [containsSeq] at h
  | cons c s' ih =>
    rw [List.cons_append]
    show (pat.isPrefixOf (c :: (s' ++ t)) || containsSeq pat (s' ++ t)) = true
    simp only [Bool.or_eq_true]
    have h' : (pat.isPrefixOf (c :: s') || containsSeq pat s') = true := h
    rcases Bool.or_eq_true_iff.mp h' with hh | hh
    · exact Or.inl (isPrefixOf_append_extend pat (c :: s') t hh)
    · exact Or.inr (ih hh)

theorem strIncludes_append_left (s t pat : String)
    (h : strIncludes s pat = true) : strIncludes (s ++ t) pat = true := by
  unfold strIncludes at h ⊢
  rw [String.data_append]
  exact containsSeq_append_left _ _ _ h

theorem strIncludes_append_right (s t pat : String)
    (h : strIncludes t pat = true) : strIncludes (s ++ t) pat = true := by
  unfold strIncludes at h ⊢
  rw [String.data_append]
  exact containsSeq_append_right _ _ _ h

theorem mapGet_mapSet_self {α : Type} (m : List (String × α)) (k : String) (v : α) :
    mapGet (mapSet m k v) k = some v := by
  induction m with
  | nil => simp [mapSet, mapGet]
  | cons p rest ih =>
    obtain ⟨k', v'⟩ := p
    by_cases h : k' = k
    · subst h; simp [mapSet, mapGet]
    · simp [mapSet, mapGet, h, ih]

theorem mapGet_mapSet_ne {α : Type} (m : List (String × α)) (k g : String) (v : α)
    (h : g ≠ k) : mapGet (mapSet m k v) g = mapGet m g := by
  induction m with
  | nil => simp [mapSet, mapGet, Ne.symm h]
  | cons p rest ih =>
    obtain ⟨k', v'⟩ := p
    by_cases hk : k' = k
    · subst hk
      simp [mapSet, mapGet, Ne.symm h]
    · by_cases hg : k' = g
      · simp [mapSet, mapGet, hk, hg, h]
      · simp [mapSet, mapGet, hk, hg, ih]

theorem recordQuery_escalations (st : SysState) (now : ℕ) (q : QueryIn)
    (r : AdviceResult) : (recordQuery st now q r).escalations = st.escalations := rfl

theorem generateAdvice_shouldEscalate (farmers : List (String × FarmerProfile))
    (ctx : Context) (month : ℕ) :
    (generateAdvice farmers ctx month).shouldEscalate =
      decide ((generateAdvice farmers ctx month).confidence < mkRat 6 10) := rfl

theorem handlerAdvice_shouldEscalate (st : SysState) (req : Request) (month : ℕ) :
    (handlerAdvice st req month).shouldEscalate =
      decide ((handlerAdvice st req month).confidence < mkRat 6 10) :=
  generateAdvice_shouldEscalate _ _ _

theorem processQuery_no_audio (st : SysState) (req : Request) (now month : ℕ)
    (haud : req.hasAudio = false) :
    processQuery st req now month = processQueryCore st req now month := by
  have h : ¬ (req.hasAudio = true ∧ (processVoice req.audioFileName).text ≠ "") := by
    rintro ⟨h1, -⟩
    rw [haud] at h1
    exact Bool.false_ne_true h1
  unfold processQuery
  rw [if_neg h]

theorem cropsOf_recordQuery (st : SysState) (now : ℕ) (q : QueryIn)
    (r : AdviceResult) (f : String) :
    cropsOf (recordQuery st now q r) f = cropsOf st f ∨
      (q.crop ∉ cropsOf st f ∧
        cropsOf (recordQuery st now q r) f = cropsOf st f ++ [q.crop]) := by
  by_cases hf : f = q.farmerId
  · subst hf
    unfold recordQuery cropsOf
    cases hg : mapGet st.farmers q.farmerId with
    | none =>
      by_cases hcond : q.crop ≠ "" ∧ ¬ (q.crop ∈ ([] : List String))
      · right
        constructor
        · simp
        · simp [mapGet_mapSet_self, hcond]
      · left
        have hq : q.crop = "" := by
          by_contra hne
          exact hcond ⟨hne, List.not_mem_nil q.crop⟩
        simp [mapGet_mapSet_self, hq]
    | some p =>
      by_cases hcond : q.crop ≠ "" ∧ ¬ (q.crop ∈ p.crops)
      · right
        constructor
        · simpa using hcond.2
        · simp [mapGet_mapSet_self, hcond]
      · left
        simp [mapGet_mapSet_self, hcond]
  · left
    unfold recordQuery cropsOf
    rw [mapGet_mapSet_ne _ _ _ _ hf]

theorem runQueries_cropsOf (ops : List (ℕ × QueryIn × AdviceResult)) :
    ∀ st : SysState, (∀ g, (cropsOf st g).Nodup) →
      (∀ g, (cropsOf (runQueries st ops) g).Nodup) ∧
      (∀ f, cropsOf st f <+: cropsOf (runQueries st ops) f) := by
  induction ops with
  | nil => exact fun st h => ⟨h, fun f => ⟨[], List.append_nil _⟩⟩
  | cons op rest ih =>
    intro st h
    have hnodup : ∀ g, (cropsOf (recordQuery st op.1 op.2.1 op.2.2) g).Nodup := by
      intro g
      rcases cropsOf_recordQuery st op.1 op.2.1 op.2.2 g with he | ⟨hm, he⟩
      · rw [he]; exact h g
      · rw [he, ← List.concat_eq_append]
        exact (h g).concat hm
    have hrun : runQueries st (op :: rest) =
        runQueries (recordQuery st op.1 op.2.1 op.2.2) rest := rfl
    rw [hrun]
    obtain ⟨h1, h2⟩ := ih _ hnodup
    refine ⟨h1, fun f => ?_⟩
    refine List.IsPrefix.trans ?_ (h2 f)
    rcases cropsOf_recordQuery st op.1 op.2.1 op.2.2 f with he | ⟨-, he⟩
    · rw [he]
    · rw [he]; exact ⟨[op.2.1.crop], rfl⟩

theorem attachFeedbackToLog_no_match (fe : FeedbackEntry) (queryId : ℕ)
    (l : List QueryRecord) (h : ∀ q ∈ l, q.id ≠ queryId) :
    attachFeedbackToLog fe queryId l = l := by
  induction l with
  | nil => rfl
  | cons q rest ih =>
    unfold attachFeedbackToLog
    rw [if_neg (h q (List.mem_cons_self q rest))]
    rw [ih (fun x hx => h x (List.mem_cons_of_mem q hx))]

/-! ### The claims -/

/-- C2 (code bug): the claim says a request carrying an audio reference still
produces a non-fatal advice response, but any request with an audio upload
makes the query route execute language = voiceResult.language || language
(front.js:449) on the const destructuring binding language (front.js:433),
which throws a TypeError; the catch turns the request into a 500 error
response and no advice, escalation or query record is produced.  Evaluated
here at a concrete audio request against the untouched empty stores. -/
theorem C2_audio_request_yields_500 :
    processQuery emptyState
      { queryText := "my banana has spots", location := "kerala", crop := "banana",
        farmerId := "f2", language := "en", season := "", hasImage := false,
        imageFileName := "", hasAudio := true, audioFileName := "voice.webm" } 1 7
      = HandlerResult.serverError "Failed to process your query" emptyState := by
  rfl

/-- C3 (code bug): the claim says months 10, 11, 12, 1, 2 default to
post-monsoon, but the source condition month >= 10 AND month <= 2
(front.js:395) is unsatisfiable, so getCurrentSeason returns pre-monsoon for
all of those months and the post-monsoon branch is dead: no month at all
yields post-monsoon.  The monsoon clause (months 6 to 9) does hold. -/
theorem C3_post_monsoon_unreachable :
    getCurrentSeason 10 = "pre-monsoon" ∧ getCurrentSeason 11 = "pre-monsoon" ∧
    getCurrentSeason 12 = "pre-monsoon" ∧ getCurrentSeason 1 = "pre-monsoon" ∧
    getCurrentSeason 2 = "pre-monsoon" ∧
    (∀ m : ℕ, 6 ≤ m → m ≤ 9 → getCurrentSeason m = "monsoon") ∧
    (∀ m : ℕ, getCurrentSeason m ≠ "post-monsoon") := by
  refine ⟨by decide, by decide, by decide, by decide, by decide, ?_, ?_⟩
  · intro m h6 h9
    unfold getCurrentSeason
    rw [if_pos ⟨h6, h9⟩]
  · intro m
    unfold getCurrentSeason
    split_ifs with h1 h2
    · decide
    · exact absurd h2 (by omega)
    · decide

/-- C4 counterexample: submitting feedback for a query id that matches no
record still appends the entry to the feedback log (the push at front.js:589
is unconditional), so the operation is not a no-op on stored state as the
claim requires. -/
theorem C4_counterexample :
    (∀ q ∈ emptyState.queries, q.id ≠ 42) ∧
    (apiFeedback emptyState 42 5 "not helpful" false 9).feedback ≠
      emptyState.feedback := by
  constructor
  · intro q hq
    exact absurd hq (List.not_mem_nil q)
  · decide

/-- C4 amended: when the submitted query id matches no record in the query
log, the query log is left unchanged, but the feedback entry is still
appended to the feedback log. -/
theorem C4_amended_feedback_still_appended (st : SysState) (queryId : ℕ)
    (rating : ℤ) (comments : String) (isHelpful : Bool) (ts : ℕ)
    (h : ∀ q ∈ st.queries, q.id ≠ queryId) :
    (apiFeedback st queryId rating comments isHelpful ts).queries = st.queries ∧
    (apiFeedback st queryId rating comments isHelpful ts).feedback =
      st.feedback ++ [{ queryId := queryId, rating := rating, comments := comments,
                        isHelpful := isHelpful, timestamp := ts }] :=
  ⟨attachFeedbackToLog_no_match _ _ _ h, rfl⟩

/-- C4 witness: the amended statement evaluated at the empty stores with the
unmatched id 42. -/
theorem C4_witness :
    (apiFeedback emptyState 42 5 "not helpful" false 9).queries =
      emptyState.queries ∧
    (apiFeedback emptyState 42 5 "not helpful" false 9).feedback =
      emptyState.feedback ++ [{ queryId := 42, rating := 5, comments := "not helpful",
                                isHelpful := false, timestamp := 9 }] :=
  C4_amended_feedback_still_appended emptyState 42 5 "not helpful" false 9
    (fun q hq => absurd hq (List.not_mem_nil q))

/-- C5 counterexample: for the Malayalam input that the phrase table maps to
the word disease, the pipeline records the translation as translatedText and
classifies the intent from it, yet the extracted entities have no disease
entry, so entities were NOT computed from the post-translation text; the
reading of the claim (processNaturalLanguageSpecC5, translation before both
extraction steps) disagrees with the code at this input. -/
theorem C5_counterexample :
    processNaturalLanguage "രോഗം" "ml" ≠ processNaturalLanguageSpecC5 "രോഗം" "ml" ∧
    (processNaturalLanguage "രോഗം" "ml").translatedText = some "disease" ∧
    (processNaturalLanguage "രോഗം" "ml").intent = "disease_diagnosis" ∧
    (processNaturalLanguage "രോഗം" "ml").entities.disease = none ∧
    (processNaturalLanguageSpecC5 "രോഗം" "ml").entities.disease = some "disease" := by
  refine ⟨by decide, by decide, by decide, by decide, by decide⟩

/-- C5 amended: for language ml the translation phrase table is applied after
entity extraction but before intent classification: entities come from the
lower-cased original text, the intent is classified from the translated text,
and the translated text is recorded as translatedText. -/
theorem C5_amended_translation_between_extraction_and_intent (text : String) :
    (processNaturalLanguage text "ml").entities = extractEntities (jsToLower text) ∧
    (processNaturalLanguage text "ml").intent = classifyIntent (translateMalayalam text) ∧
    (processNaturalLanguage text "ml").translatedText = some (translateMalayalam text) :=
  ⟨rfl, rfl, rfl⟩

/-- C8 counterexample: with an empty query log the analytics aggregation
divides zero by zero, so the escalation rate and the average confidence are
the JS NaN value, not an explicitly defined number such as 0. -/
theorem C8_counterexample :
    (getAnalytics emptyState).escalationRate = JsNum.nan ∧
    (getAnalytics emptyState).avgConfidence = JsNum.nan := by
  exact ⟨rfl, rfl⟩

/-- C8 amended: when the query log (and hence the escalation list) is empty,
the analytics aggregation returns NaN for both the escalation rate and the
average confidence; the division by the query count is not guarded. -/
theorem C8_amended_nan_on_empty_log (st : SysState)
    (hq : st.queries = []) (he : st.escalations = []) :
    (getAnalytics st).escalationRate = JsNum.nan ∧
    (getAnalytics st).avgConfidence = JsNum.nan := by
  unfold getAnalytics
  rw [hq, he]
  exact ⟨rfl, rfl⟩

/-- C8 witness: the amended statement evaluated at the empty stores. -/
theorem C8_witness :
    (getAnalytics emptyState).escalationRate = JsNum.nan ∧
    (getAnalytics emptyState).avgConfidence = JsNum.nan :=
  C8_amended_nan_on_empty_log emptyState rfl rfl

/-- C9 (code bug): the claim says every query is counted in the language
bucket of its language, but the query route records query objects without a
language field (front.js:493), so getLanguageDistribution sees
q.query.language as undefined and counts every query under en: after
processing one query submitted with language ml, the distribution is
en 1, ml 0, hi 0, other 0. -/
theorem C9_ml_query_counted_under_en :
    getLanguageDistribution (HandlerResult.state (processQuery emptyState
      { queryText := "rice disease", location := "kerala", crop := "rice",
        farmerId := "f9", language := "ml", season := "", hasImage := false,
        imageFileName := "", hasAudio := false, audioFileName := "" } 1 3)) =
      { en := 1, ml := 0, hi := 0, other := 0 } := by
  decide

/-- C10: across any sequence of recordQuery operations starting from stores
whose profiles all have duplicate-free crop lists, every profile keeps a
duplicate-free crops list, the crops list of any farmer never shrinks (the
old list is a prefix of the new one), and a single record operation either
leaves the crops of a farmer unchanged or appends exactly one crop that was
not already present. -/
theorem C10_crops_nodup_monotone (st : SysState)
    (ops : List (ℕ × QueryIn × AdviceResult)) (f : String)
    (hinv : ∀ g, (cropsOf st g).Nodup) :
    (∀ g, (cropsOf (runQueries st ops) g).Nodup) ∧
    cropsOf st f <+: cropsOf (runQueries st ops) f ∧
    (∀ now q r, cropsOf (recordQuery st now q r) f = cropsOf st f ∨
       (q.crop ∉ cropsOf st f ∧
         cropsOf (recordQuery st now q r) f = cropsOf st f ++ [q.crop])) := by
  obtain ⟨h1, h2⟩ := runQueries_cropsOf ops st hinv
  exact ⟨h1, h2 f, fun now q r => cropsOf_recordQuery st now q r f⟩

/-- C10 witness: two queries from farmer f1 both carrying crop rice, recorded
from the empty stores; the profile invariants instantiated there. -/
theorem C10_witness :
    (∀ g, (cropsOf (runQueries emptyState
        [(1, ⟨"rice help", "f1", "rice", "kerala", ""⟩, ⟨"", [], mkRat 7 10, false⟩),
         (2, ⟨"rice again", "f1", "rice", "kerala", ""⟩, ⟨"", [], mkRat 7 10, false⟩)]) g).Nodup) ∧
    cropsOf emptyState "f1" <+: cropsOf (runQueries emptyState
        [(1, ⟨"rice help", "f1", "rice", "kerala", ""⟩, ⟨"", [], mkRat 7 10, false⟩),
         (2, ⟨"rice again", "f1", "rice", "kerala", ""⟩, ⟨"", [], mkRat 7 10, false⟩)]) "f1" ∧
    (∀ now q r, cropsOf (recordQuery emptyState now q r) "f1" = cropsOf emptyState "f1" ∨
       (q.crop ∉ cropsOf emptyState "f1" ∧
         cropsOf (recordQuery emptyState now q r) "f1" = cropsOf emptyState "f1" ++ [q.crop])) :=
  C10_crops_nodup_monotone emptyState
    [(1, ⟨"rice help", "f1", "rice", "kerala", ""⟩, ⟨"", [], mkRat 7 10, false⟩),
     (2, ⟨"rice again", "f1", "rice", "kerala", ""⟩, ⟨"", [], mkRat 7 10, false⟩)] "f1"
    (fun g => by simp [cropsOf, mapGet])

/-- C1: for every query the route processes (every request that does not hit
the audio crash, see C2), the returned status is escalated exactly when the
advice confidence is below 0.6, the status agrees with the shouldEscalate
flag computed inside generateAdvice, an EscalationRecord is appended exactly
when the status is escalated, and otherwise the status is answered with the
escalation list unchanged. -/
theorem C1_escalation_iff_low_confidence (st : SysState) (req : Request)
    (now month : ℕ) (haud : req.hasAudio = false) :
    ∃ resp st',
      processQuery st req now month = HandlerResult.ok resp st' ∧
      resp.confidence = (handlerAdvice st req month).confidence ∧
      ((resp.status = "escalated") ↔ (handlerAdvice st req month).confidence < mkRat 6 10) ∧
      ((resp.status = "escalated") ↔ (handlerAdvice st req month).shouldEscalate = true) ∧
      ((resp.status = "escalated") ↔ ∃ e, st'.escalations = st.escalations ++ [e]) ∧
      (resp.status = "escalated" ∨
        (resp.status = "answered" ∧ st'.escalations = st.escalations)) := by
  rw [processQuery_no_audio st req now month haud]
  have hse := handlerAdvice_shouldEscalate st req month
  by_cases hc : (handlerAdvice st req month).confidence < mkRat 6 10
  · have hb : ((handlerAdvice st req month).shouldEscalate
        || decide ((handlerAdvice st req month).confidence < mkRat 6 10)) = true := by
      simp [hse, hc]
    unfold processQueryCore
    simp only [hb]
    refine ⟨_, _, rfl, rfl, ?_, ?_, ?_, ?_⟩
    · exact iff_of_true rfl hc
    · exact iff_of_true rfl (by simp [hse, hc])
    · exact iff_of_true rfl ⟨_, rfl⟩
    · exact Or.inl rfl
  · have hb : ((handlerAdvice st req month).shouldEscalate
        || decide ((handlerAdvice st req month).confidence < mkRat 6 10)) = false := by
      simp [hse, hc]
    unfold processQueryCore
    simp only [hb]
    refine ⟨_, _, rfl, rfl, ?_, ?_, ?_, ?_⟩
    · exact iff_of_false (by simp) hc
    · exact iff_of_false (by simp) (by simp [hse, hc])
    · refine iff_of_false (by simp) ?_
      rintro ⟨e, he⟩
      have hlen := congrArg List.length he
      simp [recordQuery_escalations] at hlen
    · exact Or.inr ⟨rfl, rfl⟩

/-- C1 witness: a text-only request with empty text from the empty stores;
the advice falls to the 0.3 generic branch, so the query is escalated, the
status and flag agree, and one escalation record is appended. -/
theorem C1_witness :
    ∃ resp st',
      processQuery emptyState
        { queryText := "", location := "", crop := "", farmerId := "anonymous",
          language := "en", season := "", hasImage := false, imageFileName := "",
          hasAudio := false, audioFileName := "" } 5 3 = HandlerResult.ok resp st' ∧
      resp.confidence = (handlerAdvice emptyState
        { queryText := "", location := "", crop := "", farmerId := "anonymous",
          language := "en", season := "", hasImage := false, imageFileName := "",
          hasAudio := false, audioFileName := "" } 3).confidence ∧
      ((resp.status = "escalated") ↔ (handlerAdvice emptyState
        { queryText := "", location := "", crop := "", farmerId := "anonymous",
          language := "en", season := "", hasImage := false, imageFileName := "",
          hasAudio := false, audioFileName := "" } 3).confidence < mkRat 6 10) ∧
      ((resp.status = "escalated") ↔ (handlerAdvice emptyState
        { queryText := "", location := "", crop := "", farmerId := "anonymous",
          language := "en", season := "", hasImage := false, imageFileName := "",
          hasAudio := false, audioFileName := "" } 3).shouldEscalate = true) ∧
      ((resp.status = "escalated") ↔ ∃ e, st'.escalations = emptyState.escalations ++ [e]) ∧
      (resp.status = "escalated" ∨
        (resp.status = "answered" ∧ st'.escalations = emptyState.escalations)) :=
  C1_escalation_iff_low_confidence emptyState
    { queryText := "", location := "", crop := "", farmerId := "anonymous",
      language := "en", season := "", hasImage := false, imageFileName := "",
      hasAudio := false, audioFileName := "" } 5 3 rfl

/-- C7: whenever a processed query escalates (its advice confidence is below
0.6), the appended EscalationRecord carries priority high exactly when the
confidence is also below 0.4 and medium otherwise — in particular the
priority expression maps a confidence of exactly 0.45 to medium. -/
theorem C7_priority_high_iff_below_04 (st : SysState) (req : Request)
    (now month : ℕ) (haud : req.hasAudio = false)
    (hesc : (handlerAdvice st req month).confidence < mkRat 6 10) :
    ∃ resp st' e,
      processQuery st req now month = HandlerResult.ok resp st' ∧
      resp.status = "escalated" ∧
      st'.escalations = st.escalations ++ [e] ∧
      e.priority = escalationPriority resp.confidence ∧
      ((e.priority = "high") ↔ resp.confidence < mkRat 4 10) ∧
      escalationPriority (mkRat 45 100) = "medium" := by
  rw [processQuery_no_audio st req now month haud]
  have hse := handlerAdvice_shouldEscalate st req month
  have hb : ((handlerAdvice st req month).shouldEscalate
      || decide ((handlerAdvice st req month).confidence < mkRat 6 10)) = true := by
    simp [hse, hesc]
  unfold processQueryCore
  simp only [hb]
  refine ⟨_, _, _, rfl, rfl, rfl, rfl, ?_, by decide⟩
  unfold escalationPriority
  by_cases h4 : (handlerAdvice st req month).confidence < mkRat 4 10
  · rw [if_pos h4]
    exact iff_of_true rfl h4
  · rw [if_neg h4]
    exact iff_of_false (by simp) h4

/-- C7 witness: the empty-text request from the empty stores escalates with
confidence 0.3; its escalation record has priority high, agreeing with the
threshold biconditional, and the priority expression sends 0.45 to medium. -/
theorem C7_witness :
    ((handlerAdvice emptyState
        { queryText := "", location := "", crop := "", farmerId := "anonymous",
          language := "en", season := "", hasImage := false, imageFileName := "",
          hasAudio := false, audioFileName := "" } 3).confidence < mkRat 6 10) ∧
    (∃ resp st' e,
      processQuery emptyState
        { queryText := "", location := "", crop := "", farmerId := "anonymous",
          language := "en", season := "", hasImage := false, imageFileName := "",
          hasAudio := false, audioFileName := "" } 5 3 = HandlerResult.ok resp st' ∧
      resp.status = "escalated" ∧
      st'.escalations = emptyState.escalations ++ [e] ∧
      e.priority = escalationPriority resp.confidence ∧
      ((e.priority = "high") ↔ resp.confidence < mkRat 4 10) ∧
      escalationPriority (mkRat 45 100) = "medium") :=
  ⟨by decide,
   C7_priority_high_iff_below_04 emptyState
     { queryText := "", location := "", crop := "", farmerId := "anonymous",
       language := "en", season := "", hasImage := false, imageFileName := "",
       hasAudio := false, audioFileName := "" } 5 3 rfl (by decide)⟩

theorem generateDiseaseAdvice_high_urgency (ia : ImageAnalysisResult)
    (actx : AiContext) (c : String) (hc : actx.crop = some c)
    (hdb : (cropDatabase c).isSome = true) (hs : ia.severity = "high") :
    strIncludes (generateDiseaseAdvice ia actx) "requiring immediate attention" = true := by
  obtain ⟨info, hinfo⟩ := Option.isSome_iff_exists.mp hdb
  unfold generateDiseaseAdvice
  rw [hc]
  dsimp only
  rw [hinfo]
  dsimp only
  rw [hs]
  rw [if_pos rfl]
  apply strIncludes_append_left
  apply strIncludes_append_left
  apply strIncludes_append_left
  apply strIncludes_append_left
  apply strIncludes_append_left
  apply strIncludes_append_left
  apply strIncludes_append_right
  decide

/-- C6 counterexample: a query whose image analysis finds Late Blight with
severity high, but whose crop (coconut) is absent from the knowledge base,
receives the generic consult answer, which contains no urgency wording at
all — the claim fails for queries whose context crop is not in the
knowledge base. -/
theorem C6_counterexample :
    (analyzeImage "leaf_blight.jpg").disease ≠ "Unknown condition" ∧
    (analyzeImage "leaf_blight.jpg").severity = "high" ∧
    HandlerResult.answer? (processQuery emptyState
      { queryText := "", location := "", crop := "coconut", farmerId := "a",
        language := "en", season := "", hasImage := true,
        imageFileName := "leaf_blight.jpg", hasAudio := false, audioFileName := "" } 1 3) =
      some "Detected Late Blight. General recommendation: Consult with local agricultural officer for crop-specific treatment." ∧
    strIncludes "Detected Late Blight. General recommendation: Consult with local agricultural officer for crop-specific treatment." "immediate" = false := by
  refine ⟨by decide, by decide, by decide, by decide⟩

/-- C6 amended: when the image analysis reports a disease other than the
Unknown-condition sentinel with severity high AND the resolved context crop
is present in the knowledge base, the generated main advice contains the
urgency sentence; when the crop is absent the generic consult message is
produced instead (see the counterexample). -/
theorem C6_urgency_when_crop_in_database (farmers : List (String × FarmerProfile))
    (ctx : Context) (month : ℕ) (ia : ImageAnalysisResult) (c : String)
    (himg : ctx.imageAnalysis = some ia)
    (hd : ia.disease ≠ "Unknown condition")
    (hs : ia.severity = "high")
    (hcrop : (buildAiContext farmers ctx month).crop = some c)
    (hdb : (cropDatabase c).isSome = true) :
    strIncludes (generateAdvice farmers ctx month).mainAdvice
      "requiring immediate attention" = true := by
  have hmain : (generateAdvice farmers ctx month).mainAdvice =
      generateDiseaseAdvice ia (buildAiContext farmers ctx month) := by
    unfold generateAdvice
    rw [himg]
    dsimp only
    rw [if_pos hd]
  rw [hmain]
  exact generateDiseaseAdvice_high_urgency ia _ c hcrop hdb hs

/-- C6 witness: the amended statement at a concrete context: Late Blight with
severity high on crop banana, which is in the knowledge base. -/
theorem C6_witness :
    ((analyzeImage "leaf_blight.jpg").disease ≠ "Unknown condition" ∧
     (analyzeImage "leaf_blight.jpg").severity = "high" ∧
     (buildAiContext []
        ⟨none, some (analyzeImage "leaf_blight.jpg"), "banana", "", "", "a"⟩ 3).crop =
       some "banana" ∧
     (cropDatabase "banana").isSome = true) ∧
    strIncludes (generateAdvice []
        ⟨none, some (analyzeImage "leaf_blight.jpg"), "banana", "", "", "a"⟩ 3).mainAdvice
      "requiring immediate attention" = true :=
  ⟨⟨by decide, by decide, by decide, by decide⟩,
   C6_urgency_when_crop_in_database []
     ⟨none, some (analyzeImage "leaf_blight.jpg"), "banana", "", "", "a"⟩ 3
     (analyzeImage "leaf_blight.jpg") "banana" rfl (by decide) (by decide)
     (by decide) (by decide)⟩

end KrishiMitra
